import Mathlib

/-!
# FMOD-Audio-Engine: the bookkeeping layer of `AudioEngine`

A shallow embedding of `src/AudioEngine/AudioEngine.{h,cpp}` and
`src/AudioEngine/Source/Data/AudioData.h`.

* The FMOD runtime is external.  Every call the engine makes into it is
  appended to a trace (`World.calls`), and whatever the runtime hands back
  (status code, out-parameter) is an argument of the operation: the theorems
  hold for every behaviour of the runtime.
* A call made through a null or indeterminate pointer is recorded like any
  other call, with that pointer as its receiver.
* `std::cout` is a second trace (`World.log`).
* `std::map<std::string, T*>` is a finite map `String → Option Ptr` with the
  C++ semantics of `insert` (keeps an existing entry), `operator[]` (creates a
  null entry when the key is absent), `count` and `erase`.
* `float` is an abstract type: the engine only stores floats, hands them to the
  runtime, multiplies by `DISTANCEFACTOR` and compares two of them with `>`.
-/

namespace FMODAudio

/-! ## Primitive types -/

/-- The C++ `float` as the engine uses it: literals, `*` and `>`. -/
class FloatOps (F : Type) where
  /-- the `float` denoted by a decimal literal such as `0.5f` -/
  lit : ℚ → F
  /-- the product `a * b` -/
  mul : F → F → F
  /-- the comparison `a > b` (false when either side is NaN) -/
  gt : F → F → Bool

/-- The rationals as a model of `float`, used to run the definitions. -/
instance instFloatOpsRat : FloatOps ℚ where
  lit := fun q => q
  mul := fun a b => a * b
  gt := fun a b => decide (b < a)

/-- A raw pointer (`FMOD::Sound*`, `FMOD::Channel*`, ...); `0` is the null pointer. -/
abbrev Ptr := Nat

/-- The null pointer, `nullptr` / `NULL` / `0`. -/
def nullptr : Ptr := 0

/-- The status code every FMOD call returns. -/
abbrev FMOD_RESULT := Nat

/-- The success status (`FMOD_OK = 0` in `fmod_common.h`). -/
def FMOD_OK : FMOD_RESULT := 0

/-- The playback state `FMOD_STUDIO_PLAYBACK_PLAYING` (`0` in `fmod_studio_common.h`). -/
def FMOD_STUDIO_PLAYBACK_PLAYING : Nat := 0

/-- The `struct Vector3` of `Source/Math/Vector3.h`. -/
structure Vector3 (F : Type) where
  x : F
  y : F
  z : F

/-- The struct `FMOD_VECTOR` of the FMOD headers. -/
structure FMOD_VECTOR (F : Type) where
  x : F
  y : F
  z : F

/-! ## `std::map<std::string, T*>` -/

/-- A `std::map` from `std::string` to a raw pointer. -/
abbrev StdMap := String → Option Ptr

namespace StdMap

/-- The empty map (the default-constructed `std::map`). -/
def empty : StdMap := fun _ => none

/-- The call `m.count(k)`: 1 when the key is present, 0 otherwise. -/
def count (m : StdMap) (k : String) : Nat :=
  match m k with
  | some _ => 1
  | none => 0

/-- The call `m.insert({k, v})`: adds the pair only when `k` is absent. -/
def insert (m : StdMap) (k : String) (v : Ptr) : StdMap :=
  match m k with
  | some _ => m
  | none => fun j => if j = k then some v else m j

/-- The expression `m[k]`: the mapped pointer, and the map afterwards; an absent key gets a
value-initialised (null) entry. -/
def subscript (m : StdMap) (k : String) : Ptr × StdMap :=
  match m k with
  | some v => (v, m)
  | none => (nullptr, fun j => if j = k then some nullptr else m j)

/-- The call `m.erase(k)`. -/
def erase (m : StdMap) (k : String) : StdMap :=
  fun j => if j = k then none else m j

end StdMap

/-! ## `AudioData` -/

/-- The `class AudioData` of `Source/Data/AudioData.h`. -/
structure AudioData (F : Type) where
  uniqueID : String
  filePath : String
  volume : F
  loaded : Bool
  loop : Bool
  is3D : Bool
  lengthMS : Nat
  reverbAmount : F
  position : Vector3 F

namespace AudioData
variable {F : Type}

def GetUniqueID (a : AudioData F) : String := a.uniqueID
def GetFilePath (a : AudioData F) : String := a.filePath
def GetVolume (a : AudioData F) : F := a.volume
def IsLoaded (a : AudioData F) : Bool := a.loaded
def Loop (a : AudioData F) : Bool := a.loop
def Is3D (a : AudioData F) : Bool := a.is3D
def GetReverbAmount (a : AudioData F) : F := a.reverbAmount
def GetPosition (a : AudioData F) : Vector3 F := a.position

def SetLoaded (a : AudioData F) (isLoaded : Bool) : AudioData F := { a with loaded := isLoaded }
def SetLengthMS (a : AudioData F) (length : Nat) : AudioData F := { a with lengthMS := length }
def SetVolume (a : AudioData F) (newVolume : F) : AudioData F := { a with volume := newVolume }

end AudioData

/-! ## The two traces: runtime calls and console output -/

/-- A call into the FMOD runtime, with the arguments the engine passes. -/
inductive Call (F : Type) where
  | studioCreate
  | getCoreSystem (studio : Ptr)
  | setSoftwareFormat (sys : Ptr) (sampleRate : Nat)
  | set3DSettings (sys : Ptr) (dopplerScale distanceFactor rolloffScale : F)
  | studioInit (studio : Ptr) (maxChannels : Nat)
  | getMasterChannelGroup (sys : Ptr)
  | createReverb3D (sys : Ptr)
  | reverbSetProperties (reverb : Ptr)
  | reverbSet3DAttributes (reverb : Ptr) (pos : FMOD_VECTOR F) (minDist maxDist : F)
  | systemClose (sys : Ptr)
  | studioRelease (studio : Ptr)
  | studioUpdate (studio : Ptr)
  | createSound (sys : Ptr) (path : String) (mode3D : Bool)
  | soundSetMode (sound : Ptr) (loopNormal : Bool)
  | soundSet3DMinMaxDistance (sound : Ptr) (minDist maxDist : F)
  | soundGetLength (sound : Ptr)
  | playSound (sys : Ptr) (sound : Ptr) (paused : Bool)
  | channelSet3DAttributes (channel : Ptr) (pos vel : FMOD_VECTOR F)
  | channelSetVolume (channel : Ptr) (volume : F)
  | channelSetReverbProperties (channel : Ptr) (inst : Nat) (wet : F)
  | channelSetPaused (channel : Ptr) (paused : Bool)
  | channelStop (channel : Ptr)
  | channelGetDSPClock (channel : Ptr)
  | channelAddFadePoint (channel : Ptr) (dspclock : Nat) (volume : F)
  | set3DListenerAttributes (sys : Ptr) (pos fwd up : FMOD_VECTOR F)
  | loadBankFile (studio : Ptr) (path : String)
  | getEvent (studio : Ptr) (name : String)
  | createInstance (description : Ptr)
  | setParameterByName (inst : Ptr) (name : String) (value : F)
  | eventStart (inst : Ptr)
  | eventStop (inst : Ptr) (allowFadeout : Bool)
  | eventSetVolume (inst : Ptr) (volume : F)
  | getPlaybackState (inst : Ptr)
  | setMute (group : Ptr) (mute : Bool)

/-- A line written to `std::cout`. -/
inductive Msg (F : Type) where
  /-- Line "Audio Engine: Loading Sound from file ..." -/
  | loadingSound (path : String)
  /-- Line "Audio Engine: Sound File was already loaded!" -/
  | alreadyLoaded
  /-- Line "Audio Engine: Can't play, sound was not loaded yet from ..." -/
  | cantPlay (path : String)
  /-- Line "Audio Engine: Can't stop a looping sound that's not playing!" -/
  | cantStop
  /-- Line "AudioEngine: Can't update sound loop volume! ..." -/
  | cantUpdateVolume
  /-- Line "Audio Engine: Can't update sound position!" -/
  | cantUpdatePosition
  /-- Line "Audio Engine: Loading FMOD Studio Sound Bank ..." -/
  | loadingBank (path : String)
  /-- Line "AudioEngine: Loading FMOD Studio Event ..." -/
  | loadingEvent (name : String)
  /-- Line "AudioEngine: Setting Event Instance Parameter ... to value: ..." -/
  | settingEventParam (name : String) (value : F)
  /-- Line "AudioEngine: Event ... was not in event instance cache, can't set param" -/
  | eventMissingCantSetParam (name : String)
  /-- Line "AudioEngine: Event ... was not in event instance cache, cannot play" -/
  | eventMissingCannotPlay (name : String)
  /-- Line "AudioEngine: Event ... was not in event instance cache, cannot stop" -/
  | eventMissingCannotStop (name : String)
  /-- Line "AudioEngine: Setting Event Volume" -/
  | settingEventVolume
  /-- Line "FMOD ERROR: AudioEngine.cpp [Line ...] ..." -/
  | fmodError (line : Nat) (result : FMOD_RESULT)

/-- Whether a console line is one of the three "was not in event instance cache" lines. -/
def Msg.isMissingRegistration {F : Type} : Msg F → Bool
  | .eventMissingCantSetParam _ => true
  | .eventMissingCannotPlay _ => true
  | .eventMissingCannotStop _ => true
  | _ => false

/-! ## The engine -/

/-- The data members of `class AudioEngine`. -/
structure AudioEngine (F : Type) where
  studioSystem : Ptr
  lowLevelSystem : Ptr
  listenerPosition : FMOD_VECTOR F
  forward : FMOD_VECTOR F
  up : FMOD_VECTOR F
  mastergroup : Ptr
  reverb : Ptr
  revPos : FMOD_VECTOR F
  revMinDist : F
  revMaxDist : F
  muted : Bool
  sounds : StdMap
  loopsPlaying : StdMap
  soundBanks : StdMap
  eventDescriptions : StdMap
  eventInstances : StdMap

/-- The engine together with everything it has done so far to the outside. -/
structure World (F : Type) where
  engine : AudioEngine F
  calls : List (Call F)
  log : List (Msg F)

section Definitions
variable {F : Type} [FloatOps F]

/-- The constant `static const int AUDIO_SAMPLE_RATE = 44100`. -/
def AUDIO_SAMPLE_RATE : Nat := 44100

/-- The constant `static const unsigned int MAX_AUDIO_CHANNELS = 255`. -/
def MAX_AUDIO_CHANNELS : Nat := 255

/-- The constant `const float DISTANCEFACTOR = 1.0f`. -/
def DISTANCEFACTOR : F := FloatOps.lit 1

/-- The constructor `AudioEngine::AudioEngine()`: empty caches and the default member
initialisers of the header.  The member `reverb` has no initialiser; its
indeterminate value is the argument. -/
def AudioEngine.ctor (reverb : Ptr) : AudioEngine F :=
  { studioSystem := nullptr
    lowLevelSystem := nullptr
    listenerPosition := ⟨FloatOps.lit 0, FloatOps.lit 0, FloatOps.mul (FloatOps.lit (-1)) DISTANCEFACTOR⟩
    forward := ⟨FloatOps.lit 0, FloatOps.lit 0, FloatOps.lit 1⟩
    up := ⟨FloatOps.lit 0, FloatOps.lit 1, FloatOps.lit 0⟩
    mastergroup := nullptr
    reverb := reverb
    revPos := ⟨FloatOps.lit 0, FloatOps.lit 0, FloatOps.lit 0⟩
    revMinDist := FloatOps.lit 10
    revMaxDist := FloatOps.lit 50
    muted := false
    sounds := StdMap.empty
    loopsPlaying := StdMap.empty
    soundBanks := StdMap.empty
    eventDescriptions := StdMap.empty
    eventInstances := StdMap.empty }

/-- A freshly constructed engine that has not yet done anything. -/
def World.fresh (reverb : Ptr) : World F :=
  { engine := AudioEngine.ctor reverb, calls := [], log := [] }

/-- Record a call into the runtime. -/
def World.call (w : World F) (c : Call F) : World F :=
  { w with calls := w.calls ++ [c] }

/-- Write a line to `std::cout`. -/
def World.cout (w : World F) (m : Msg F) : World F :=
  { w with log := w.log ++ [m] }

/-- The function `ERRCHECK_fn(result, file, line)`: prints when the status is not `FMOD_OK`. -/
def ERRCHECK_fn (w : World F) (result : FMOD_RESULT) (line : Nat) : World F :=
  if result != FMOD_OK then w.cout (Msg.fmodError line result) else w

/-! ## What the runtime hands back -/

/-- Results of the calls of `Init` (status, and the out-parameter where there is one). -/
structure InitResp where
  create : FMOD_RESULT × Ptr
  getCoreSystem : FMOD_RESULT × Ptr
  setSoftwareFormat : FMOD_RESULT
  set3DSettings : FMOD_RESULT
  studioInit : FMOD_RESULT
  getMasterChannelGroup : FMOD_RESULT × Ptr
  createReverb3D : FMOD_RESULT × Ptr
  setProperties : FMOD_RESULT
  set3DAttributes : FMOD_RESULT

/-- Results of the calls of `Terminate`. -/
structure TerminateResp where
  close : FMOD_RESULT
  release : FMOD_RESULT

/-- Results of the calls of `Load`: `createSound.2` is the value of the local
`sound` after the call, `getLength.2` the value of `msLength` after the call. -/
structure LoadResp where
  createSound : FMOD_RESULT × Ptr
  setMode : FMOD_RESULT
  set3DMinMaxDistance : FMOD_RESULT
  getLength : FMOD_RESULT × Nat

/-- Results of the calls of `Play`: `playSound.2` is the value of the local
`channel` after the call. -/
structure PlayResp where
  playSound : FMOD_RESULT × Ptr
  set3DAttributes : FMOD_RESULT
  setVolume : FMOD_RESULT
  setReverbProperties : FMOD_RESULT
  setPaused : FMOD_RESULT

/-- Results of the calls of `UpdateVolume`: `getDSPClock.2` is the value of
`parentclock` after the call. -/
structure UpdateVolumeResp where
  setVolume : FMOD_RESULT
  getDSPClock : FMOD_RESULT × Nat
  addFadePoint1 : FMOD_RESULT
  addFadePoint2 : FMOD_RESULT

/-- Results of the calls of `LoadEvent`; `setParameterByName i` is the status of
the call for the `i`-th pair. -/
structure LoadEventResp where
  getEvent : FMOD_RESULT × Ptr
  createInstance : FMOD_RESULT × Ptr
  setParameterByName : Nat → FMOD_RESULT

/-! ## The operations of `AudioEngine.cpp` -/

/-- Method `AudioEngine::InitializeReverb()`. -/
def AudioEngine.InitializeReverb (w : World F) (r : InitResp) : World F :=
  let w := w.call (Call.createReverb3D w.engine.lowLevelSystem)
  let w := { w with engine := { w.engine with reverb := r.createReverb3D.2 } }
  let w := ERRCHECK_fn w r.createReverb3D.1 274
  let w := w.call (Call.reverbSetProperties w.engine.reverb)
  let w := ERRCHECK_fn w r.setProperties 276
  let w := w.call (Call.reverbSet3DAttributes w.engine.reverb w.engine.revPos
    w.engine.revMinDist w.engine.revMaxDist)
  ERRCHECK_fn w r.set3DAttributes 277

/-- Method `AudioEngine::Init()`. -/
def AudioEngine.Init (w : World F) (r : InitResp) : World F :=
  let w := w.call Call.studioCreate
  let w := { w with engine := { w.engine with studioSystem := r.create.2 } }
  let w := ERRCHECK_fn w r.create.1 22
  let w := w.call (Call.getCoreSystem w.engine.studioSystem)
  let w := { w with engine := { w.engine with lowLevelSystem := r.getCoreSystem.2 } }
  let w := ERRCHECK_fn w r.getCoreSystem.1 23
  let w := w.call (Call.setSoftwareFormat w.engine.lowLevelSystem AUDIO_SAMPLE_RATE)
  let w := ERRCHECK_fn w r.setSoftwareFormat 24
  let w := w.call (Call.set3DSettings w.engine.lowLevelSystem (FloatOps.lit 1) DISTANCEFACTOR
    (FloatOps.lit (1/2)))
  let w := ERRCHECK_fn w r.set3DSettings 25
  let w := w.call (Call.studioInit w.engine.studioSystem MAX_AUDIO_CHANNELS)
  let w := ERRCHECK_fn w r.studioInit 26
  let w := w.call (Call.getMasterChannelGroup w.engine.lowLevelSystem)
  let w := { w with engine := { w.engine with mastergroup := r.getMasterChannelGroup.2 } }
  let w := ERRCHECK_fn w r.getMasterChannelGroup.1 27
  AudioEngine.InitializeReverb w r

/-- Method `AudioEngine::Terminate()`: the two statuses are dropped, not passed to `ERRCHECK`. -/
def AudioEngine.Terminate (w : World F) (_r : TerminateResp) : World F :=
  let w := w.call (Call.systemClose w.engine.lowLevelSystem)
  w.call (Call.studioRelease w.engine.studioSystem)

/-- Method `AudioEngine::Update()`. -/
def AudioEngine.Update (w : World F) (r : FMOD_RESULT) : World F :=
  let w := w.call (Call.studioUpdate w.engine.studioSystem)
  ERRCHECK_fn w r 38

/-- The body of `AudioEngine::Load(AudioData audioData)`, returning also the
parameter object as it is when the body ends.  The parameter is passed by
value, so this object is the callee's copy. -/
def AudioEngine.LoadBody (w : World F) (audioData : AudioData F) (r : LoadResp) :
    World F × AudioData F :=
  if !audioData.IsLoaded then
    let w := w.cout (Msg.loadingSound audioData.GetFilePath)
    let w := w.call (Call.createSound w.engine.lowLevelSystem audioData.GetFilePath audioData.Is3D)
    let sound := r.createSound.2
    let w := ERRCHECK_fn w r.createSound.1 47
    let w := w.call (Call.soundSetMode sound audioData.Loop)
    let w := ERRCHECK_fn w r.setMode 48
    let w := w.call (Call.soundSet3DMinMaxDistance sound
      (FloatOps.mul (FloatOps.lit (1/2)) DISTANCEFACTOR)
      (FloatOps.mul (FloatOps.lit 5000) DISTANCEFACTOR))
    let w := ERRCHECK_fn w r.set3DMinMaxDistance 49
    let w := { w with engine := { w.engine with
      sounds := w.engine.sounds.insert audioData.GetUniqueID sound } }
    let cached := w.engine.sounds.subscript audioData.GetUniqueID
    let w := { w with engine := { w.engine with sounds := cached.2 } }
    let w := w.call (Call.soundGetLength cached.1)
    let msLength := r.getLength.2
    let w := ERRCHECK_fn w r.getLength.1 52
    let audioData := audioData.SetLengthMS msLength
    let audioData := audioData.SetLoaded true
    (w, audioData)
  else
    (w.cout Msg.alreadyLoaded, audioData)

/-- Method `AudioEngine::Load(AudioData audioData)`: the callee's copy of the
parameter is destroyed on return; the caller's `AudioData` is untouched. -/
def AudioEngine.Load (w : World F) (audioData : AudioData F) (r : LoadResp) : World F :=
  (AudioEngine.LoadBody w audioData r).1

/-- Method `AudioEngine::Set3DChannelPosition(audioData, channel)`. -/
def AudioEngine.Set3DChannelPosition (w : World F) (audioData : AudioData F) (channel : Ptr)
    (r : FMOD_RESULT) : World F :=
  let position : FMOD_VECTOR F :=
    ⟨FloatOps.mul audioData.GetPosition.x DISTANCEFACTOR,
     FloatOps.mul audioData.GetPosition.y DISTANCEFACTOR,
     FloatOps.mul audioData.GetPosition.z DISTANCEFACTOR⟩
  let velocity : FMOD_VECTOR F := ⟨FloatOps.lit 0, FloatOps.lit 0, FloatOps.lit 0⟩
  let w := w.call (Call.channelSet3DAttributes channel position velocity)
  ERRCHECK_fn w r 269

/-- Method `AudioEngine::Play(AudioData audioData)`. -/
def AudioEngine.Play (w : World F) (audioData : AudioData F) (r : PlayResp) : World F :=
  if !audioData.IsLoaded then
    let looked := w.engine.sounds.subscript audioData.GetUniqueID
    let w := { w with engine := { w.engine with sounds := looked.2 } }
    let w := w.call (Call.playSound w.engine.lowLevelSystem looked.1 true)
    let channel := r.playSound.2
    let w := ERRCHECK_fn w r.playSound.1 66
    let w := if audioData.Is3D then
        AudioEngine.Set3DChannelPosition w audioData channel r.set3DAttributes
      else w
    let w := w.call (Call.channelSetVolume channel audioData.GetVolume)
    let w := if audioData.Loop then
        { w with engine := { w.engine with
          loopsPlaying := w.engine.loopsPlaying.insert audioData.GetUniqueID channel } }
      else w
    let w := w.call (Call.channelSetReverbProperties channel 0 audioData.GetReverbAmount)
    let w := ERRCHECK_fn w r.setReverbProperties 79
    let w := w.call (Call.channelSetPaused channel false)
    ERRCHECK_fn w r.setPaused 82
  else
    w.cout (Msg.cantPlay audioData.GetFilePath)

/-- Method `AudioEngine::IsPlaying(AudioData audioData)`. -/
def AudioEngine.IsPlaying (e : AudioEngine F) (audioData : AudioData F) : Bool :=
  audioData.Loop && (e.loopsPlaying.count audioData.GetUniqueID != 0)

/-- Method `AudioEngine::Stop(AudioData audioData)`. -/
def AudioEngine.Stop (w : World F) (audioData : AudioData F) (r : FMOD_RESULT) : World F :=
  if AudioEngine.IsPlaying w.engine audioData then
    let looked := w.engine.loopsPlaying.subscript audioData.GetUniqueID
    let w := { w with engine := { w.engine with loopsPlaying := looked.2 } }
    let w := w.call (Call.channelStop looked.1)
    let w := ERRCHECK_fn w r 94
    { w with engine := { w.engine with
      loopsPlaying := w.engine.loopsPlaying.erase audioData.GetUniqueID } }
  else
    w.cout Msg.cantStop

/-- Method `AudioEngine::UpdateVolume(AudioData& audioData, float newVolume, unsigned int
fadeSampleLength)`.  The asset is passed by reference: the second component is
the caller's `AudioData` afterwards.  `parentclock + fadeSampleLength` is
`unsigned long long` arithmetic. -/
def AudioEngine.UpdateVolume (w : World F) (audioData : AudioData F) (newVolume : F)
    (fadeSampleLength : Nat) (r : UpdateVolumeResp) : World F × AudioData F :=
  if AudioEngine.IsPlaying w.engine audioData then
    let looked := w.engine.loopsPlaying.subscript audioData.GetUniqueID
    let w := { w with engine := { w.engine with loopsPlaying := looked.2 } }
    let channel := looked.1
    let w :=
      if fadeSampleLength ≤ 64 then
        let w := w.call (Call.channelSetVolume channel newVolume)
        ERRCHECK_fn w r.setVolume 107
      else
        let fadeUp := FloatOps.gt newVolume audioData.GetVolume
        let w := w.call (Call.channelGetDSPClock channel)
        let parentclock := r.getDSPClock.2
        let w := ERRCHECK_fn w r.getDSPClock.1 112
        let targetFadeVol : F := if fadeUp then FloatOps.lit 1 else newVolume
        let w := if fadeUp then
            ERRCHECK_fn (w.call (Call.channelSetVolume channel newVolume)) r.setVolume 116
          else w
        let w := w.call (Call.channelAddFadePoint channel parentclock audioData.GetVolume)
        let w := ERRCHECK_fn w r.addFadePoint1 118
        let w := w.call (Call.channelAddFadePoint channel
          ((parentclock + fadeSampleLength) % 2 ^ 64) targetFadeVol)
        ERRCHECK_fn w r.addFadePoint2 119
    (w, audioData.SetVolume newVolume)
  else
    (w.cout Msg.cantUpdateVolume, audioData)

/-- Method `AudioEngine::Update3DPosition(AudioData audioData)`. -/
def AudioEngine.Update3DPosition (w : World F) (audioData : AudioData F) (r : FMOD_RESULT) :
    World F :=
  if AudioEngine.IsPlaying w.engine audioData then
    let looked := w.engine.loopsPlaying.subscript audioData.GetUniqueID
    let w := { w with engine := { w.engine with loopsPlaying := looked.2 } }
    AudioEngine.Set3DChannelPosition w audioData looked.1 r
  else
    w.cout Msg.cantUpdatePosition

/-- Method `AudioEngine::Set3DListenerPosition(...)`. -/
def AudioEngine.Set3DListenerPosition (w : World F) (posX posY posZ forwardX forwardY forwardZ
    upX upY upZ : F) (r : FMOD_RESULT) : World F :=
  let w := { w with engine := { w.engine with
    listenerPosition := ⟨posX, posY, posZ⟩
    forward := ⟨forwardX, forwardY, forwardZ⟩
    up := ⟨upX, upY, upZ⟩ } }
  let w := w.call (Call.set3DListenerAttributes w.engine.lowLevelSystem
    w.engine.listenerPosition w.engine.forward w.engine.up)
  ERRCHECK_fn w r 157

/-- Method `AudioEngine::GetLengthMS(AudioData audioData)`; `r.2` is the value of the
local `length` after `getLength` returns.  The second component is the
returned length. -/
def AudioEngine.GetLengthMS (w : World F) (audioData : AudioData F) (r : FMOD_RESULT × Nat) :
    World F × Nat :=
  if w.engine.sounds.count audioData.GetUniqueID != 0 then
    let looked := w.engine.sounds.subscript audioData.GetUniqueID
    let w := { w with engine := { w.engine with sounds := looked.2 } }
    let w := w.call (Call.soundGetLength looked.1)
    let length := r.2
    (ERRCHECK_fn w r.1 164, length)
  else
    (w, 0)

/-- Method `AudioEngine::LoadBank(const char* filepath)`; `r.2` is the value of the
local `bank` after `loadBankFile` returns. -/
def AudioEngine.LoadBank (w : World F) (filepath : String) (r : FMOD_RESULT × Ptr) : World F :=
  let w := w.cout (Msg.loadingBank filepath)
  let w := w.call (Call.loadBankFile w.engine.studioSystem filepath)
  let bank := r.2
  let w := ERRCHECK_fn w r.1 172
  { w with engine := { w.engine with soundBanks := w.engine.soundBanks.insert filepath bank } }

/-- The `for` loop of `AudioEngine::LoadEvent` over the pairs still to do; `i`
is the position of the next pair. -/
def AudioEngine.LoadEventLoop (eventInstance : Ptr) (status : Nat → FMOD_RESULT) :
    List (String × F) → Nat → World F → World F
  | [], _, w => w
  | parVal :: rest, i, w =>
    let w := w.cout (Msg.settingEventParam parVal.1 parVal.2)
    let w := w.call (Call.setParameterByName eventInstance parVal.1 parVal.2)
    let w := ERRCHECK_fn w (status i) 187
    AudioEngine.LoadEventLoop eventInstance status rest (i + 1) w

/-- Method `AudioEngine::LoadEvent(eventName, paramsValues)`. -/
def AudioEngine.LoadEvent (w : World F) (eventName : String) (paramsValues : List (String × F))
    (r : LoadEventResp) : World F :=
  let w := w.cout (Msg.loadingEvent eventName)
  let w := w.call (Call.getEvent w.engine.studioSystem eventName)
  let eventDescription := r.getEvent.2
  let w := ERRCHECK_fn w r.getEvent.1 180
  let w := w.call (Call.createInstance eventDescription)
  let eventInstance := r.createInstance.2
  let w := ERRCHECK_fn w r.createInstance.1 183
  let w := AudioEngine.LoadEventLoop eventInstance r.setParameterByName paramsValues 0 w
  let w := { w with engine := { w.engine with
    eventInstances := w.engine.eventInstances.insert eventName eventInstance } }
  { w with engine := { w.engine with
    eventDescriptions := w.engine.eventDescriptions.insert eventName eventDescription } }

/-- Method `AudioEngine::SetEventParamValue(eventName, parameterName, value)`. -/
def AudioEngine.SetEventParamValue (w : World F) (eventName parameterName : String) (value : F)
    (r : FMOD_RESULT) : World F :=
  if w.engine.eventInstances.count eventName > 0 then
    let looked := w.engine.eventInstances.subscript eventName
    let w := { w with engine := { w.engine with eventInstances := looked.2 } }
    let w := w.call (Call.setParameterByName looked.1 parameterName value)
    ERRCHECK_fn w r 196
  else
    w.cout (Msg.eventMissingCantSetParam eventName)

/-- Method `AudioEngine::PlayEvent(eventName, instanceIndex)`: the first statement,
`auto eventInstance = eventInstances[eventName];`, runs before the `count` test. -/
def AudioEngine.PlayEvent (w : World F) (eventName : String) (_instanceIndex : Int)
    (r : FMOD_RESULT) : World F :=
  let first := w.engine.eventInstances.subscript eventName
  let w := { w with engine := { w.engine with eventInstances := first.2 } }
  if w.engine.eventInstances.count eventName > 0 then
    let looked := w.engine.eventInstances.subscript eventName
    let w := { w with engine := { w.engine with eventInstances := looked.2 } }
    let w := w.call (Call.eventStart looked.1)
    ERRCHECK_fn w r 206
  else
    w.cout (Msg.eventMissingCannotPlay eventName)

/-- Method `AudioEngine::StopEvent(eventName, instanceIndex)`. -/
def AudioEngine.StopEvent (w : World F) (eventName : String) (_instanceIndex : Int)
    (r : FMOD_RESULT) : World F :=
  if w.engine.eventInstances.count eventName > 0 then
    let looked := w.engine.eventInstances.subscript eventName
    let w := { w with engine := { w.engine with eventInstances := looked.2 } }
    let w := w.call (Call.eventStop looked.1 true)
    ERRCHECK_fn w r 213
  else
    w.cout (Msg.eventMissingCannotStop eventName)

/-- Method `AudioEngine::SetEventVolume(eventName, volume0to1)`. -/
def AudioEngine.SetEventVolume (w : World F) (eventName : String) (volume0to1 : F)
    (r : FMOD_RESULT) : World F :=
  let w := w.cout Msg.settingEventVolume
  let looked := w.engine.eventInstances.subscript eventName
  let w := { w with engine := { w.engine with eventInstances := looked.2 } }
  let w := w.call (Call.eventSetVolume looked.1 volume0to1)
  ERRCHECK_fn w r 221

/-- Method `AudioEngine::IsPlaying(const char* eventName, int instance)`; `r.2` is the
value of the local `playbackState` after `getPlaybackState` returns. -/
def AudioEngine.IsPlayingEvent (w : World F) (eventName : String) (_inst : Int)
    (r : FMOD_RESULT × Nat) : World F × Bool :=
  let looked := w.engine.eventInstances.subscript eventName
  let w := { w with engine := { w.engine with eventInstances := looked.2 } }
  let w := w.call (Call.getPlaybackState looked.1)
  let playbackState := r.2
  let w := ERRCHECK_fn w r.1 227
  (w, playbackState == FMOD_STUDIO_PLAYBACK_PLAYING)

/-- Method `AudioEngine::MuteAll()`. -/
def AudioEngine.MuteAll (w : World F) (r : FMOD_RESULT) : World F :=
  let w := w.call (Call.setMute w.engine.mastergroup true)
  let w := ERRCHECK_fn w r 234
  { w with engine := { w.engine with muted := true } }

/-- Method `AudioEngine::UnmuteAll()`. -/
def AudioEngine.UnmuteAll (w : World F) (r : FMOD_RESULT) : World F :=
  let w := w.call (Call.setMute w.engine.mastergroup false)
  let w := ERRCHECK_fn w r 240
  { w with engine := { w.engine with muted := false } }

/-- Method `AudioEngine::IsMute()`. -/
def AudioEngine.IsMute (e : AudioEngine F) : Bool := e.muted

/-- Method `AudioEngine::IsLoaded(AudioData audioData)` (private; no caller in the file). -/
def AudioEngine.IsLoaded (e : AudioEngine F) (audioData : AudioData F) : Bool :=
  e.sounds.count audioData.GetUniqueID > 0

/-- Whether a call is `createSound`. -/
def Call.isCreateSound : Call F → Bool
  | .createSound _ _ _ => true
  | _ => false

/-- Whether a call is `playSound`. -/
def Call.isPlaySound : Call F → Bool
  | .playSound _ _ _ => true
  | _ => false

/-- Whether a call is `addFadePoint`. -/
def Call.isAddFadePoint : Call F → Bool
  | .channelAddFadePoint _ _ _ => true
  | _ => false

/-- Whether a call is `Channel::stop`. -/
def Call.isChannelStop : Call F → Bool
  | .channelStop _ => true
  | _ => false

/-- Whether a console line is an "FMOD ERROR" line, the output of `ERRCHECK_fn`. -/
def Msg.isFmodError : Msg F → Bool
  | .fmodError _ _ => true
  | _ => false

/-- The number of "FMOD ERROR" lines on the console so far. -/
def World.diagnostics (w : World F) : Nat :=
  (w.log.filter Msg.isFmodError).length

/-- The number of statuses in a list that are not `FMOD_OK`. -/
def failures (statuses : List FMOD_RESULT) : Nat :=
  (statuses.filter (fun s => s != FMOD_OK)).length

end Definitions

/-! ## Concrete inputs -/

/-- A looping 2D asset "k" whose `loaded` flag is not set. -/
def loopAsset : AudioData ℚ :=
  { uniqueID := "k", filePath := "k.wav", volume := 1/4, loaded := false, loop := true,
    is3D := false, lengthMS := 0, reverbAmount := 0, position := ⟨0, 0, 0⟩ }

/-- The same asset "k" as a one-shot (loop flag not set). -/
def oneShotAsset : AudioData ℚ := { loopAsset with loop := false }

/-- A runtime in which `playSound` succeeds and yields channel 7. -/
def playOk : PlayResp := ⟨(FMOD_OK, 7), FMOD_OK, FMOD_OK, FMOD_OK, FMOD_OK⟩

/-- A runtime in which `playSound` fails with status 31 and leaves 7 in
`channel`, and the calls on that channel fail with status 30. -/
def playFails : PlayResp := ⟨(31, 7), 30, 30, 30, 30⟩

/-- A runtime in which `createSound` succeeds with sound 5 of 1000 ms. -/
def loadOk5 : LoadResp := ⟨(FMOD_OK, 5), FMOD_OK, FMOD_OK, (FMOD_OK, 1000)⟩

/-- A runtime in which `createSound` succeeds with sound 6 of 1000 ms. -/
def loadOk6 : LoadResp := ⟨(FMOD_OK, 6), FMOD_OK, FMOD_OK, (FMOD_OK, 1000)⟩

/-- The engine after `Play(loopAsset)` on a fresh engine: channel 7 is registered for "k". -/
def playingWorld : World ℚ := AudioEngine.Play (World.fresh 0) loopAsset playOk

/-- A runtime whose DSP clock reads 1000 and whose calls succeed. -/
def fadeOk : UpdateVolumeResp := ⟨FMOD_OK, (FMOD_OK, 1000), FMOD_OK, FMOD_OK⟩

/-- The engine after one `Load(loopAsset)` on a fresh engine. -/
def loadedOnce : World ℚ := AudioEngine.Load (World.fresh 0) loopAsset loadOk5

/-- The engine after a second `Load` of the same `loopAsset` object. -/
def loadedTwice : World ℚ := AudioEngine.Load loadedOnce loopAsset loadOk6

/-- The asset "k" as the body of `Load` leaves its own copy: loaded flag set,
length 1000 ms. -/
def loadedAsset : AudioData ℚ := (AudioEngine.LoadBody (World.fresh 0) loopAsset loadOk5).2

/-- The engine after `Play(loopAsset)` on a fresh engine when every call fails:
the lookup `sounds["k"]` has left a null entry for "k". -/
def playedUnloaded : World ℚ := AudioEngine.Play (World.fresh 0) loopAsset playFails

/-- A runtime in which `getEvent` yields descriptor 3 and `createInstance` instance 4. -/
def eventResp34 : LoadEventResp := ⟨(FMOD_OK, 3), (FMOD_OK, 4), fun _ => FMOD_OK⟩

/-- A runtime in which `getEvent` yields descriptor 5 and `createInstance` instance 6. -/
def eventResp56 : LoadEventResp := ⟨(FMOD_OK, 5), (FMOD_OK, 6), fun _ => FMOD_OK⟩

/-- The engine after `LoadEvent("explosion", [("intensity", 0.8)])` on a fresh engine. -/
def eventLoaded : World ℚ :=
  AudioEngine.LoadEvent (World.fresh 0) "explosion" [("intensity", 4/5)] eventResp34

/-- A runtime in which `playSound` succeeds with channel 7 and only `setVolume`
fails, with status 30. -/
def playVolumeFails : PlayResp := ⟨(FMOD_OK, 7), FMOD_OK, 30, FMOD_OK, FMOD_OK⟩

/-- A runtime in which both calls of `Terminate` fail with status 30. -/
def terminateFails : TerminateResp := ⟨30, 30⟩

/-- A runtime in which every call of `Init` succeeds: studio system 1, core
system 2, master channel group 3, reverb 4. -/
def initOk : InitResp :=
  ⟨(FMOD_OK, 1), (FMOD_OK, 2), FMOD_OK, FMOD_OK, FMOD_OK, (FMOD_OK, 3), (FMOD_OK, 4), FMOD_OK,
    FMOD_OK⟩

/-- The engine after `Init()` and `Load(loopAsset)`, every call having succeeded. -/
def readyWorld : World ℚ :=
  AudioEngine.Load (AudioEngine.Init (World.fresh 0) initOk) loopAsset loadOk5

/-- The engine after `Init()`, `Load(loopAsset)` and `Play(loopAsset)`: the loop
"k" plays sound 5 on channel 7. -/
def readyPlaying : World ℚ := AudioEngine.Play readyWorld loopAsset playOk

/-- A runtime in which `playSound` succeeds and yields channel 9. -/
def playOk9 : PlayResp := ⟨(FMOD_OK, 9), FMOD_OK, FMOD_OK, FMOD_OK, FMOD_OK⟩

/-! ## Basic facts -/

section Facts
variable {F : Type}

@[simp] theorem call_engine (w : World F) (c : Call F) : (w.call c).engine = w.engine := rfl

@[simp] theorem call_calls (w : World F) (c : Call F) : (w.call c).calls = w.calls ++ [c] := rfl

@[simp] theorem call_log (w : World F) (c : Call F) : (w.call c).log = w.log := rfl

@[simp] theorem cout_engine (w : World F) (m : Msg F) : (w.cout m).engine = w.engine := rfl

@[simp] theorem cout_calls (w : World F) (m : Msg F) : (w.cout m).calls = w.calls := rfl

@[simp] theorem cout_log (w : World F) (m : Msg F) : (w.cout m).log = w.log ++ [m] := rfl

@[simp] theorem ERRCHECK_fn_engine (w : World F) (res : FMOD_RESULT) (line : Nat) :
    (ERRCHECK_fn w res line).engine = w.engine := by
  unfold ERRCHECK_fn
  split <;> rfl

@[simp] theorem ERRCHECK_fn_calls (w : World F) (res : FMOD_RESULT) (line : Nat) :
    (ERRCHECK_fn w res line).calls = w.calls := by
  unfold ERRCHECK_fn
  split <;> rfl

theorem ERRCHECK_fn_log (w : World F) (res : FMOD_RESULT) (line : Nat) :
    (ERRCHECK_fn w res line).log
      = w.log ++ (if res = FMOD_OK then [] else [Msg.fmodError line res]) := by
  unfold ERRCHECK_fn
  by_cases h : res = FMOD_OK <;> simp [h, World.cout]

theorem count_eq_zero_iff (m : StdMap) (k : String) : m.count k = 0 ↔ m k = none := by
  unfold StdMap.count
  cases m k <;> simp

theorem subscript_of_some (m : StdMap) (k : String) (v : Ptr) (h : m k = some v) :
    m.subscript k = (v, m) := by
  unfold StdMap.subscript
  rw [h]

theorem erase_self (m : StdMap) (k : String) : m.erase k k = none := by
  simp [StdMap.erase]

theorem erase_other (m : StdMap) (k j : String) (h : j ≠ k) : m.erase k j = m j := by
  simp [StdMap.erase, h]

theorem insert_self (m : StdMap) (k : String) (v : Ptr) :
    m.insert k v k = some ((m k).getD v) := by
  unfold StdMap.insert
  cases h : m k <;> simp [h]

theorem insert_other (m : StdMap) (k j : String) (v : Ptr) (h : j ≠ k) :
    m.insert k v j = m j := by
  unfold StdMap.insert
  cases hk : m k <;> simp [h]

theorem IsPlaying_eq_true_iff (e : AudioEngine F) (a : AudioData F) :
    AudioEngine.IsPlaying e a = true ↔
      a.Loop = true ∧ ∃ ch, e.loopsPlaying a.GetUniqueID = some ch := by
  unfold AudioEngine.IsPlaying StdMap.count
  cases h : e.loopsPlaying a.GetUniqueID <;> simp

theorem IsPlaying_eq_false_iff (e : AudioEngine F) (a : AudioData F) :
    AudioEngine.IsPlaying e a = false ↔
      (a.Loop = false ∨ e.loopsPlaying a.GetUniqueID = none) := by
  unfold AudioEngine.IsPlaying StdMap.count
  cases h : e.loopsPlaying a.GetUniqueID <;> cases a.Loop <;> simp

theorem Set3DChannelPosition_engine [FloatOps F] (w : World F) (a : AudioData F)
    (ch : Ptr) (r : FMOD_RESULT) :
    (AudioEngine.Set3DChannelPosition w a ch r).engine = w.engine := by
  unfold AudioEngine.Set3DChannelPosition
  simp only [ERRCHECK_fn_engine, call_engine]

/-- When the loaded flag is set, `Play` only prints its "Can't play" line. -/
theorem Play_of_loaded [FloatOps F] (w : World F) (a : AudioData F) (r : PlayResp)
    (h : a.IsLoaded = true) :
    AudioEngine.Play w a r = w.cout (Msg.cantPlay a.GetFilePath) := by
  unfold AudioEngine.Play
  simp [h]

/-- With the loaded flag unset, the first call `Play` adds to the trace is
`playSound` on whatever `sounds[id]` yields (null when the key is absent). -/
theorem Play_of_unloaded_calls_playSound [FloatOps F] (w : World F)
    (a : AudioData F) (r : PlayResp) (h : a.IsLoaded = false) :
    ∃ rest, (AudioEngine.Play w a r).calls
      = w.calls ++ Call.playSound w.engine.lowLevelSystem
          ((w.engine.sounds a.GetUniqueID).getD nullptr) true :: rest := by
  have hs : (w.engine.sounds.subscript a.GetUniqueID).1
      = (w.engine.sounds a.GetUniqueID).getD nullptr := by
    unfold StdMap.subscript
    cases w.engine.sounds a.GetUniqueID <;> rfl
  unfold AudioEngine.Play
  simp only [h, Bool.not_false, if_true]
  rw [hs]
  cases h3 : a.Is3D <;> cases hl : a.Loop <;>
    simp [AudioEngine.Set3DChannelPosition]

/-- With the loaded flag unset and the loop flag set, `IsPlaying` holds after `Play`. -/
theorem IsPlaying_Play_of_unloaded_loop [FloatOps F] (w : World F) (a : AudioData F)
    (r : PlayResp) (h : a.IsLoaded = false) (hl : a.Loop = true) :
    AudioEngine.IsPlaying (AudioEngine.Play w a r).engine a = true := by
  rw [IsPlaying_eq_true_iff]
  refine ⟨hl, (w.engine.loopsPlaying a.GetUniqueID).getD r.playSound.2, ?_⟩
  unfold AudioEngine.Play
  simp only [h, hl, Bool.not_false, if_true, ERRCHECK_fn_engine, call_engine]
  cases h3 : a.Is3D
  · simp only [Bool.false_eq_true, if_false, ERRCHECK_fn_engine, call_engine]
    exact insert_self _ _ _
  · simp only [if_true, Set3DChannelPosition_engine, ERRCHECK_fn_engine, call_engine]
    exact insert_self _ _ _

/-- For an asset whose loop flag is not set, `IsPlaying` is false in every state. -/
theorem IsPlaying_of_not_loop (e : AudioEngine F) (a : AudioData F)
    (hl : a.Loop = false) : AudioEngine.IsPlaying e a = false :=
  (IsPlaying_eq_false_iff e a).mpr (Or.inl hl)

/-- With the loaded flag unset, each `Load` adds exactly one `createSound` to the trace. -/
theorem Load_of_unloaded_createSound_count [FloatOps F] (w : World F)
    (a : AudioData F) (r : LoadResp) (h : a.IsLoaded = false) :
    ((AudioEngine.Load w a r).calls.filter Call.isCreateSound).length
      = (w.calls.filter Call.isCreateSound).length + 1 := by
  unfold AudioEngine.Load AudioEngine.LoadBody
  simp [h, Call.isCreateSound, List.filter_append]

/-- In every state `PlayEvent` calls `start` on the looked-up instance (null for
a name with no entry) and prints no line of its own. -/
theorem PlayEvent_calls (w : World F) (eventName : String) (i : Int)
    (r : FMOD_RESULT) :
    (AudioEngine.PlayEvent w eventName i r).calls
      = w.calls ++ [Call.eventStart ((w.engine.eventInstances eventName).getD nullptr)] := by
  unfold AudioEngine.PlayEvent
  cases h : w.engine.eventInstances eventName <;>
    simp [StdMap.subscript, StdMap.count, h]

end Facts

/-! ## C1: `Play` of an asset that is not loaded -/

/-- C1 (the code departs from the claim): on a freshly constructed engine, where
nothing was ever loaded, `Play` of the looping asset "k" whose loaded flag is
not set calls `playSound` (on the null sound that the lookup `sounds["k"]` has
just created), registers the returned channel 7 in `loopsPlaying`, leaves a
null entry for "k" in `sounds`, and prints no "Can't play" line: the console
shows only the FMOD errors of the failed calls. -/
theorem C1_Play_unloaded_starts_playback :
    (AudioEngine.Play (World.fresh 0) loopAsset playFails).calls
        = [Call.playSound nullptr nullptr true, Call.channelSetVolume 7 (1/4),
           Call.channelSetReverbProperties 7 0 0, Call.channelSetPaused 7 false]
      ∧ loopAsset.IsLoaded = false
      ∧ (World.fresh 0 : World ℚ).engine.loopsPlaying "k" = none
      ∧ (AudioEngine.Play (World.fresh 0) loopAsset playFails).engine.loopsPlaying "k" = some 7
      ∧ (World.fresh 0 : World ℚ).engine.sounds "k" = none
      ∧ (AudioEngine.Play (World.fresh 0) loopAsset playFails).engine.sounds "k" = some nullptr
      ∧ (AudioEngine.Play (World.fresh 0) loopAsset playFails).log
          = [Msg.fmodError 66 31, Msg.fmodError 79 30, Msg.fmodError 82 30] := by
  refine ⟨rfl, rfl, rfl, ?_, rfl, ?_, rfl⟩ <;> decide

/-! ## C2: `Load` twice -/

/-- C2 (the code departs from the claim): two successive `Load` calls with the
same asset object "k" issue two `createSound` calls and print "Loading Sound"
twice, never "already loaded".  `Load` takes its argument by value: the loaded
flag and the length are written to the callee's copy, while the caller's asset
still has its flag unset at the second call.  The cache keeps the first
sound (5), so the second (6) is created and dropped. -/
theorem C2_Load_twice_creates_two_sounds :
    (loadedTwice.calls.filter Call.isCreateSound).length = 2
      ∧ (loadedOnce.calls.filter Call.isCreateSound).length = 1
      ∧ loadedTwice.log = [Msg.loadingSound "k.wav", Msg.loadingSound "k.wav"]
      ∧ loadedOnce.engine.sounds "k" = some 5
      ∧ loadedTwice.engine.sounds "k" = some 5
      ∧ (AudioEngine.LoadBody (World.fresh 0) loopAsset loadOk5).2.IsLoaded = true
      ∧ (AudioEngine.LoadBody (World.fresh 0) loopAsset loadOk5).2.lengthMS = 1000
      ∧ loopAsset.IsLoaded = false := by
  refine ⟨rfl, rfl, rfl, ?_, ?_, rfl, rfl, rfl⟩ <;> decide

/-! ## C3: `IsPlaying` right after `Play` -/

/-- C3 (the code departs from the claim): with sound 5 cached for "k" by a
`Load`, `Play` of the looping asset "k" whose loaded flag is set makes no call
into the runtime, prints "Can't play, sound was not loaded yet", and
`IsPlaying` is false afterwards. -/
theorem C3_Play_loaded_loop_is_not_playing :
    loadedAsset.IsLoaded = true
      ∧ loadedAsset.Loop = true
      ∧ loadedAsset.GetUniqueID = "k"
      ∧ loadedOnce.engine.sounds "k" = some 5
      ∧ (AudioEngine.Play loadedOnce loadedAsset playOk).calls = loadedOnce.calls
      ∧ (AudioEngine.Play loadedOnce loadedAsset playOk).log
          = loadedOnce.log ++ [Msg.cantPlay "k.wav"]
      ∧ AudioEngine.IsPlaying (AudioEngine.Play loadedOnce loadedAsset playOk).engine
          loadedAsset = false := by
  refine ⟨rfl, rfl, rfl, ?_, rfl, rfl, ?_⟩ <;> decide

/-! ## C4: `IsPlaying` on a fresh engine and after `Stop` -/

/-- C4, counterexample: channel 7 is registered for "k"; `Stop` of the asset "k"
whose loop flag is not set leaves that handle in `loopsPlaying`. -/
theorem C4_Stop_without_loop_flag_keeps_handle :
    oneShotAsset.GetUniqueID = "k"
      ∧ oneShotAsset.Loop = false
      ∧ playingWorld.engine.loopsPlaying "k" = some 7
      ∧ (AudioEngine.Stop playingWorld oneShotAsset FMOD_OK).engine.loopsPlaying "k" = some 7
      ∧ (AudioEngine.Stop playingWorld oneShotAsset FMOD_OK).engine.loopsPlaying "k" ≠ none := by
  refine ⟨rfl, rfl, ?_, ?_, ?_⟩ <;> decide

/-- C4, amended: `IsPlaying(asset)` is false on a freshly constructed engine;
after `Stop(asset)` in any state `IsPlaying(asset)` is false, the handles of all
other identifiers are unchanged, and the handle of the asset's identifier is
removed when the asset's loop flag is set and left as it was when it is not. -/
theorem C4_IsPlaying_false_fresh_and_after_Stop {F : Type} [FloatOps F] (reverb : Ptr)
    (w : World F) (a : AudioData F) (r : FMOD_RESULT) :
    AudioEngine.IsPlaying (AudioEngine.ctor reverb : AudioEngine F) a = false
      ∧ AudioEngine.IsPlaying (AudioEngine.Stop w a r).engine a = false
      ∧ (AudioEngine.Stop w a r).engine.loopsPlaying a.GetUniqueID
          = (if a.Loop = true then none else w.engine.loopsPlaying a.GetUniqueID)
      ∧ ∀ k : String, k ≠ a.GetUniqueID →
          (AudioEngine.Stop w a r).engine.loopsPlaying k = w.engine.loopsPlaying k := by
  refine ⟨?_, ?_, ?_, ?_⟩
  · rw [IsPlaying_eq_false_iff]
    exact Or.inr rfl
  · rw [IsPlaying_eq_false_iff]
    unfold AudioEngine.Stop
    by_cases hp : AudioEngine.IsPlaying w.engine a = true
    · rw [if_pos hp]
      simp only [ERRCHECK_fn_engine, call_engine]
      exact Or.inr (erase_self _ _)
    · rw [if_neg hp]
      exact (IsPlaying_eq_false_iff _ _).mp (by simpa using hp)
  · unfold AudioEngine.Stop
    by_cases hp : AudioEngine.IsPlaying w.engine a = true
    · rw [if_pos hp]
      simp only [ERRCHECK_fn_engine, call_engine]
      rw [erase_self, if_pos ((IsPlaying_eq_true_iff _ _).mp hp).1]
    · rw [if_neg hp]
      simp only [cout_engine]
      have hf : AudioEngine.IsPlaying w.engine a = false := by simpa using hp
      rcases (IsPlaying_eq_false_iff _ _).mp hf with hl | hn
      · simp [hl]
      · simp [hn]
  · intro k hk
    unfold AudioEngine.Stop
    by_cases hp : AudioEngine.IsPlaying w.engine a = true
    · rw [if_pos hp]
      simp only [ERRCHECK_fn_engine, call_engine]
      rw [erase_other _ _ _ hk]
      obtain ⟨_, ch, hch⟩ := (IsPlaying_eq_true_iff _ _).mp hp
      rw [subscript_of_some _ _ _ hch]
    · rw [if_neg hp]
      rfl

/-- C4, the amended statement at a concrete input: stopping the playing loop "k". -/
theorem C4_IsPlaying_false_fresh_and_after_Stop_witness :
    AudioEngine.IsPlaying (AudioEngine.ctor 0 : AudioEngine ℚ) loopAsset = false
      ∧ AudioEngine.IsPlaying (AudioEngine.Stop playingWorld loopAsset FMOD_OK).engine
          loopAsset = false
      ∧ (AudioEngine.Stop playingWorld loopAsset FMOD_OK).engine.loopsPlaying "k" = none
      ∧ (AudioEngine.Stop playingWorld loopAsset FMOD_OK).engine.loopsPlaying "j"
          = playingWorld.engine.loopsPlaying "j" := by
  have h := C4_IsPlaying_false_fresh_and_after_Stop 0 playingWorld loopAsset FMOD_OK
  exact ⟨h.1, h.2.1, h.2.2.1, h.2.2.2 "j" (by decide)⟩

/-! ## C5: the fade branch of `UpdateVolume` -/

/-- C5, counterexample: the loop "k" plays on channel 7 with stored volume 1/4;
`UpdateVolume` to 1/2 over 100 samples at DSP clock 1000 adds the second fade
point at clock 1100 with volume 1, not 1/2. -/
theorem C5_fade_up_targets_full_volume :
    AudioEngine.IsPlaying playingWorld.engine loopAsset = true
      ∧ loopAsset.GetVolume = 1/4
      ∧ (AudioEngine.UpdateVolume playingWorld loopAsset (1/2) 100 fadeOk).1.calls
          = playingWorld.calls ++
            [Call.channelGetDSPClock 7, Call.channelSetVolume 7 (1/2),
             Call.channelAddFadePoint 7 1000 (1/4), Call.channelAddFadePoint 7 1100 1]
      ∧ (1 : ℚ) ≠ 1/2 := by
  refine ⟨by decide, rfl, ?_, by norm_num⟩
  simp [AudioEngine.UpdateVolume, AudioEngine.IsPlaying, playingWorld, AudioEngine.Play,
    World.fresh, AudioEngine.ctor, loopAsset, playOk, fadeOk, StdMap.subscript, StdMap.insert,
    StdMap.count, StdMap.empty, AudioData.IsLoaded, AudioData.Loop, AudioData.Is3D,
    AudioData.GetUniqueID, AudioData.GetVolume, AudioData.GetReverbAmount, ERRCHECK_fn, FMOD_OK,
    World.call, FloatOps.gt, FloatOps.lit]
  norm_num

/-- C5, amended: for a playing loop asset and `fadeSampleLength > 64`,
`UpdateVolume` reads the DSP clock of the registered channel and adds exactly
two fade points to it: the first at the clock value with the asset's previous
stored volume, the second at clock + `fadeSampleLength` (unsigned 64-bit
arithmetic).  When `newVolume` is not greater than the previous volume the
second point has volume `newVolume`; when it is greater, the channel volume is
first set to `newVolume` and the second point has volume 1.0. -/
theorem C5_UpdateVolume_fade_points {F : Type} [FloatOps F] (w : World F) (a : AudioData F)
    (newVolume : F) (fadeSampleLength : Nat) (r : UpdateVolumeResp)
    (hp : AudioEngine.IsPlaying w.engine a = true) (hf : 64 < fadeSampleLength) :
    ∃ ch, w.engine.loopsPlaying a.GetUniqueID = some ch
      ∧ (AudioEngine.UpdateVolume w a newVolume fadeSampleLength r).1.calls
          = w.calls ++ [Call.channelGetDSPClock ch]
            ++ (if FloatOps.gt newVolume a.GetVolume = true
                then [Call.channelSetVolume ch newVolume] else [])
            ++ [Call.channelAddFadePoint ch r.getDSPClock.2 a.GetVolume,
                Call.channelAddFadePoint ch ((r.getDSPClock.2 + fadeSampleLength) % 2 ^ 64)
                  (if FloatOps.gt newVolume a.GetVolume = true then FloatOps.lit 1
                   else newVolume)]
      ∧ ((AudioEngine.UpdateVolume w a newVolume fadeSampleLength r).1.calls.filter
            Call.isAddFadePoint).length
          = (w.calls.filter Call.isAddFadePoint).length + 2 := by
  obtain ⟨_, ch, hch⟩ := (IsPlaying_eq_true_iff _ _).mp hp
  have hnot : ¬ fadeSampleLength ≤ 64 := Nat.not_le.mpr hf
  have hcalls : (AudioEngine.UpdateVolume w a newVolume fadeSampleLength r).1.calls
      = w.calls ++ [Call.channelGetDSPClock ch]
        ++ (if FloatOps.gt newVolume a.GetVolume = true
            then [Call.channelSetVolume ch newVolume] else [])
        ++ [Call.channelAddFadePoint ch r.getDSPClock.2 a.GetVolume,
            Call.channelAddFadePoint ch ((r.getDSPClock.2 + fadeSampleLength) % 2 ^ 64)
              (if FloatOps.gt newVolume a.GetVolume = true then FloatOps.lit 1
               else newVolume)] := by
    unfold AudioEngine.UpdateVolume
    rw [if_pos hp, subscript_of_some _ _ _ hch]
    simp only [if_neg hnot]
    by_cases hg : FloatOps.gt newVolume a.GetVolume = true
    · simp [hg]
    · simp [hg]
  refine ⟨ch, hch, hcalls, ?_⟩
  rw [hcalls]
  by_cases hg : FloatOps.gt newVolume a.GetVolume = true
  · simp [hg, Call.isAddFadePoint, List.filter_append]
  · simp [hg, Call.isAddFadePoint, List.filter_append]

/-- C5, the amended statement at a concrete input: fading the playing loop "k"
down from 1/4 to 1/8 over 100 samples. -/
theorem C5_UpdateVolume_fade_points_witness :
    ∃ ch, playingWorld.engine.loopsPlaying loopAsset.GetUniqueID = some ch
      ∧ (AudioEngine.UpdateVolume playingWorld loopAsset (1/8) 100 fadeOk).1.calls
          = playingWorld.calls ++ [Call.channelGetDSPClock ch]
            ++ (if FloatOps.gt (1/8 : ℚ) loopAsset.GetVolume = true
                then [Call.channelSetVolume ch (1/8)] else [])
            ++ [Call.channelAddFadePoint ch fadeOk.getDSPClock.2 loopAsset.GetVolume,
                Call.channelAddFadePoint ch ((fadeOk.getDSPClock.2 + 100) % 2 ^ 64)
                  (if FloatOps.gt (1/8 : ℚ) loopAsset.GetVolume = true then FloatOps.lit 1
                   else 1/8)]
      ∧ ((AudioEngine.UpdateVolume playingWorld loopAsset (1/8) 100 fadeOk).1.calls.filter
            Call.isAddFadePoint).length
          = (playingWorld.calls.filter Call.isAddFadePoint).length + 2 :=
  C5_UpdateVolume_fade_points playingWorld loopAsset (1/8) 100 fadeOk (by decide) (by decide)

/-! ## C6: stored volume, and the immediate branch of `UpdateVolume` -/

/-- C6: for a playing loop asset, the asset's stored volume after `UpdateVolume`
is `newVolume` for every `fadeSampleLength`; and when `fadeSampleLength ≤ 64`
the calls into the runtime are exactly one `setVolume(newVolume)` on the
registered channel (no DSP-clock read, no fade point), and the engine's
members are unchanged. -/
theorem C6_UpdateVolume_stores_volume {F : Type} [FloatOps F] (w : World F) (a : AudioData F)
    (newVolume : F) (fadeSampleLength : Nat) (r : UpdateVolumeResp)
    (hp : AudioEngine.IsPlaying w.engine a = true) :
    (AudioEngine.UpdateVolume w a newVolume fadeSampleLength r).2.GetVolume = newVolume
      ∧ (fadeSampleLength ≤ 64 →
          ∃ ch, w.engine.loopsPlaying a.GetUniqueID = some ch
            ∧ (AudioEngine.UpdateVolume w a newVolume fadeSampleLength r).1.calls
                = w.calls ++ [Call.channelSetVolume ch newVolume]
            ∧ (AudioEngine.UpdateVolume w a newVolume fadeSampleLength r).1.engine
                = w.engine) := by
  obtain ⟨_, ch, hch⟩ := (IsPlaying_eq_true_iff _ _).mp hp
  constructor
  · unfold AudioEngine.UpdateVolume
    rw [if_pos hp]
    rfl
  · intro hle
    refine ⟨ch, hch, ?_, ?_⟩
    · unfold AudioEngine.UpdateVolume
      rw [if_pos hp, subscript_of_some _ _ _ hch]
      simp only [if_pos hle, ERRCHECK_fn_calls, call_calls]
    · unfold AudioEngine.UpdateVolume
      rw [if_pos hp, subscript_of_some _ _ _ hch]
      simp only [if_pos hle, ERRCHECK_fn_engine, call_engine]

/-- C6 at a concrete input: the playing loop "k", new volume 1/2, a fade length
of exactly 64 samples. -/
theorem C6_UpdateVolume_stores_volume_witness :
    (AudioEngine.UpdateVolume playingWorld loopAsset (1/2) 64 fadeOk).2.GetVolume = (1/2 : ℚ)
      ∧ ∃ ch, playingWorld.engine.loopsPlaying loopAsset.GetUniqueID = some ch
          ∧ (AudioEngine.UpdateVolume playingWorld loopAsset (1/2) 64 fadeOk).1.calls
              = playingWorld.calls ++ [Call.channelSetVolume ch (1/2)]
          ∧ (AudioEngine.UpdateVolume playingWorld loopAsset (1/2) 64 fadeOk).1.engine
              = playingWorld.engine :=
  ⟨(C6_UpdateVolume_stores_volume playingWorld loopAsset (1/2) 64 fadeOk (by decide)).1,
   (C6_UpdateVolume_stores_volume playingWorld loopAsset (1/2) 64 fadeOk (by decide)).2
     (by decide)⟩

/-! ## C7: `GetLengthMS` for an identifier never passed to `Load` -/

/-- C7 (the code departs from the claim): starting from a fresh engine, `Play`
of the asset "k" whose loaded flag is not set leaves a null entry for "k" in
`sounds` although `Load` was never called; `GetLengthMS` for "k" then calls
`getLength` on that null sound.  On the fresh engine itself `GetLengthMS`
makes no call and returns 0. -/
theorem C7_GetLengthMS_after_Play_calls_runtime :
    playedUnloaded.calls.filter Call.isCreateSound = []
      ∧ (AudioEngine.GetLengthMS playedUnloaded loopAsset (30, 0)).1.calls
          = playedUnloaded.calls ++ [Call.soundGetLength nullptr]
      ∧ (AudioEngine.GetLengthMS playedUnloaded loopAsset (30, 0)).1.log
          = playedUnloaded.log ++ [Msg.fmodError 164 30]
      ∧ (AudioEngine.GetLengthMS (World.fresh 0) loopAsset (30, 0)).1.calls = []
      ∧ (AudioEngine.GetLengthMS (World.fresh 0) loopAsset (30, 0)).2 = 0 := by
  refine ⟨rfl, ?_, ?_, ?_, ?_⟩ <;> rfl

/-! ## C8: event operations on a name that was never registered -/

/-- C8 (the code departs from the claim): on a fresh engine, with no event
registered, `PlayEvent("nonexistent")`, `SetEventVolume("nonexistent", 0.75)`
and `IsPlaying("nonexistent")` each create a null entry for the name in
`eventInstances`, call the runtime on that null instance (`start`,
`setVolume`, `getPlaybackState`), and print no "was not in event instance
cache" line.  `SetEventParamValue` and `StopEvent` on the same name print
their line and make no call; `PlayEvent` on the registered name "explosion"
starts instance 4 and prints nothing. -/
theorem C8_unregistered_event_reaches_runtime :
    (World.fresh 0 : World ℚ).engine.eventInstances "nonexistent" = none
      ∧ (AudioEngine.SetEventParamValue (World.fresh 0 : World ℚ) "nonexistent" "intensity"
          (4/5) 30).calls = []
      ∧ (AudioEngine.SetEventParamValue (World.fresh 0 : World ℚ) "nonexistent" "intensity"
          (4/5) 30).log = [Msg.eventMissingCantSetParam "nonexistent"]
      ∧ (AudioEngine.StopEvent (World.fresh 0 : World ℚ) "nonexistent" 0 30).calls = []
      ∧ (AudioEngine.StopEvent (World.fresh 0 : World ℚ) "nonexistent" 0 30).log
          = [Msg.eventMissingCannotStop "nonexistent"]
      ∧ (AudioEngine.PlayEvent eventLoaded "explosion" 0 FMOD_OK).calls
          = eventLoaded.calls ++ [Call.eventStart 4]
      ∧ (AudioEngine.PlayEvent eventLoaded "explosion" 0 FMOD_OK).log = eventLoaded.log
      ∧ (AudioEngine.PlayEvent (World.fresh 0 : World ℚ) "nonexistent" 0 30).calls
          = [Call.eventStart nullptr]
      ∧ (AudioEngine.PlayEvent (World.fresh 0 : World ℚ) "nonexistent" 0 30).log
          = [Msg.fmodError 206 30]
      ∧ (AudioEngine.PlayEvent (World.fresh 0 : World ℚ) "nonexistent" 0 30).engine.eventInstances
          "nonexistent" = some nullptr
      ∧ (AudioEngine.SetEventVolume (World.fresh 0 : World ℚ) "nonexistent" (3/4) 30).calls
          = [Call.eventSetVolume nullptr (3/4)]
      ∧ (AudioEngine.SetEventVolume (World.fresh 0 : World ℚ) "nonexistent" (3/4) 30).log
          = [Msg.settingEventVolume, Msg.fmodError 221 30]
      ∧ (AudioEngine.SetEventVolume (World.fresh 0 : World ℚ) "nonexistent" (3/4)
          30).engine.eventInstances "nonexistent" = some nullptr
      ∧ (AudioEngine.IsPlayingEvent (World.fresh 0 : World ℚ) "nonexistent" 0 (30, 5)).1.calls
          = [Call.getPlaybackState nullptr]
      ∧ (AudioEngine.IsPlayingEvent (World.fresh 0 : World ℚ) "nonexistent" 0 (30, 5)).1.log
          = [Msg.fmodError 227 30]
      ∧ (AudioEngine.IsPlayingEvent (World.fresh 0 : World ℚ) "nonexistent" 0
          (30, 5)).1.engine.eventInstances "nonexistent" = some nullptr
      ∧ ([Msg.fmodError 206 30, Msg.settingEventVolume, Msg.fmodError 221 30,
          Msg.fmodError 227 30] : List (Msg ℚ)).any Msg.isMissingRegistration = false := by
  refine ⟨rfl, rfl, rfl, rfl, rfl, ?_, ?_, rfl, rfl, ?_, rfl, rfl, ?_, rfl, rfl, ?_, rfl⟩ <;> rfl

/-! ## C9: `LoadEvent` -/

/-- C9, counterexample: "explosion" is registered with descriptor 3 and instance
4; a second `LoadEvent("explosion", ...)` obtains descriptor 5 and instance 6,
and afterwards the caches still map "explosion" to 3 and 4. -/
theorem C9_LoadEvent_keeps_earlier_registration :
    eventLoaded.engine.eventInstances "explosion" = some 4
      ∧ eventLoaded.engine.eventDescriptions "explosion" = some 3
      ∧ eventResp56.createInstance.2 = 6
      ∧ eventResp56.getEvent.2 = 5
      ∧ (AudioEngine.LoadEvent eventLoaded "explosion" [("intensity", 4/5)]
          eventResp56).engine.eventInstances "explosion" = some 4
      ∧ (AudioEngine.LoadEvent eventLoaded "explosion" [("intensity", 4/5)]
          eventResp56).engine.eventDescriptions "explosion" = some 3 := by
  refine ⟨?_, ?_, rfl, rfl, ?_, ?_⟩ <;> decide

/-- The loop of `LoadEvent` does not touch the engine's members. -/
theorem LoadEventLoop_engine {F : Type} (inst : Ptr) (status : Nat → FMOD_RESULT)
    (ps : List (String × F)) (i : Nat) (w : World F) :
    (AudioEngine.LoadEventLoop inst status ps i w).engine = w.engine := by
  induction ps generalizing i w with
  | nil => rfl
  | cons p rest ih =>
    unfold AudioEngine.LoadEventLoop
    rw [ih]
    simp only [ERRCHECK_fn_engine, call_engine, cout_engine]

/-- The loop of `LoadEvent` issues one `setParameterByName` per pair, in list order. -/
theorem LoadEventLoop_calls {F : Type} (inst : Ptr) (status : Nat → FMOD_RESULT)
    (ps : List (String × F)) (i : Nat) (w : World F) :
    (AudioEngine.LoadEventLoop inst status ps i w).calls
      = w.calls ++ ps.map (fun p => Call.setParameterByName inst p.1 p.2) := by
  induction ps generalizing i w with
  | nil => simp [AudioEngine.LoadEventLoop]
  | cons p rest ih =>
    unfold AudioEngine.LoadEventLoop
    rw [ih]
    simp only [ERRCHECK_fn_calls, call_calls, cout_calls, List.map_cons, List.append_assoc,
      List.singleton_append]

/-- C9, amended: after `LoadEvent(name, params)` each of `eventInstances` and
`eventDescriptions` maps `name` to the entry it already had for `name` if it had
one, and otherwise to the instance / descriptor obtained by this call; the
entries of other names are unchanged; and the calls made are `getEvent`,
`createInstance` on the descriptor obtained, then one `setParameterByName` on
the new instance per (parameterName, value) pair, in input order. -/
theorem C9_LoadEvent_registers_if_absent {F : Type} (w : World F) (eventName : String)
    (paramsValues : List (String × F)) (r : LoadEventResp) :
    (AudioEngine.LoadEvent w eventName paramsValues r).engine.eventInstances eventName
        = some ((w.engine.eventInstances eventName).getD r.createInstance.2)
      ∧ (AudioEngine.LoadEvent w eventName paramsValues r).engine.eventDescriptions eventName
        = some ((w.engine.eventDescriptions eventName).getD r.getEvent.2)
      ∧ (∀ k : String, k ≠ eventName →
          (AudioEngine.LoadEvent w eventName paramsValues r).engine.eventInstances k
              = w.engine.eventInstances k
            ∧ (AudioEngine.LoadEvent w eventName paramsValues r).engine.eventDescriptions k
              = w.engine.eventDescriptions k)
      ∧ (AudioEngine.LoadEvent w eventName paramsValues r).calls
        = w.calls ++ [Call.getEvent w.engine.studioSystem eventName,
            Call.createInstance r.getEvent.2]
          ++ paramsValues.map (fun p => Call.setParameterByName r.createInstance.2 p.1 p.2) := by
  unfold AudioEngine.LoadEvent
  simp only [LoadEventLoop_engine, LoadEventLoop_calls, ERRCHECK_fn_engine, ERRCHECK_fn_calls,
    call_engine, call_calls, cout_engine, cout_calls]
  refine ⟨insert_self _ _ _, insert_self _ _ _, ?_, ?_⟩
  · intro k hk
    exact ⟨insert_other _ _ _ _ hk, insert_other _ _ _ _ hk⟩
  · simp

/-- C9, the amended statement at a concrete input: the first registration of
"explosion" with one parameter. -/
theorem C9_LoadEvent_registers_if_absent_witness :
    eventLoaded.engine.eventInstances "explosion" = some 4
      ∧ eventLoaded.engine.eventDescriptions "explosion" = some 3
      ∧ eventLoaded.engine.eventInstances "other" = none
      ∧ eventLoaded.calls
          = [Call.getEvent nullptr "explosion", Call.createInstance 3,
             Call.setParameterByName 4 "intensity" (4/5)] := by
  have h := C9_LoadEvent_registers_if_absent (World.fresh 0 : World ℚ) "explosion"
    [("intensity", 4/5)] eventResp34
  exact ⟨h.1, h.2.1, (h.2.2.1 "other" (by decide)).1, h.2.2.2⟩

/-! ## C10: operations on an asset with no active playback handle -/

/-- C10: when the asset is not a loop or its identifier has no entry in
`loopsPlaying`, each of `Stop`, `UpdateVolume` and `Update3DPosition` makes no
call into the runtime and leaves every member of the engine (in particular
`sounds` and `loopsPlaying`) as it was, printing one line; `UpdateVolume` also
leaves the asset, and so its stored volume, unchanged. -/
theorem C10_no_handle_is_no_op {F : Type} [FloatOps F] (w : World F) (a : AudioData F)
    (newVolume : F) (fadeSampleLength : Nat) (r : FMOD_RESULT) (rv : UpdateVolumeResp)
    (h : a.Loop = false ∨ w.engine.loopsPlaying a.GetUniqueID = none) :
    ((AudioEngine.Stop w a r).calls = w.calls
        ∧ (AudioEngine.Stop w a r).engine = w.engine
        ∧ (AudioEngine.Stop w a r).log = w.log ++ [Msg.cantStop])
      ∧ ((AudioEngine.UpdateVolume w a newVolume fadeSampleLength rv).1.calls = w.calls
        ∧ (AudioEngine.UpdateVolume w a newVolume fadeSampleLength rv).1.engine = w.engine
        ∧ (AudioEngine.UpdateVolume w a newVolume fadeSampleLength rv).1.log
            = w.log ++ [Msg.cantUpdateVolume]
        ∧ (AudioEngine.UpdateVolume w a newVolume fadeSampleLength rv).2 = a)
      ∧ ((AudioEngine.Update3DPosition w a r).calls = w.calls
        ∧ (AudioEngine.Update3DPosition w a r).engine = w.engine
        ∧ (AudioEngine.Update3DPosition w a r).log = w.log ++ [Msg.cantUpdatePosition]) := by
  have hp : ¬ AudioEngine.IsPlaying w.engine a = true := by
    rw [(IsPlaying_eq_false_iff _ _).mpr h]
    exact Bool.false_ne_true
  refine ⟨?_, ?_, ?_⟩
  · unfold AudioEngine.Stop
    rw [if_neg hp]
    exact ⟨rfl, rfl, rfl⟩
  · unfold AudioEngine.UpdateVolume
    rw [if_neg hp]
    exact ⟨rfl, rfl, rfl, rfl⟩
  · unfold AudioEngine.Update3DPosition
    rw [if_neg hp]
    exact ⟨rfl, rfl, rfl⟩

/-- C10 at a concrete input: the one-shot asset "k" while a handle for "k" is
registered. -/
theorem C10_no_handle_is_no_op_witness :
    (oneShotAsset.Loop = false ∨ playingWorld.engine.loopsPlaying oneShotAsset.GetUniqueID = none)
      ∧ (AudioEngine.Stop playingWorld oneShotAsset 0).calls = playingWorld.calls
      ∧ (AudioEngine.UpdateVolume playingWorld oneShotAsset (1/2) 100 fadeOk).2 = oneShotAsset
      ∧ (AudioEngine.Update3DPosition playingWorld oneShotAsset 0).engine
          = playingWorld.engine :=
  have h := C10_no_handle_is_no_op playingWorld oneShotAsset (1/2) 100 0 fadeOk (Or.inl rfl)
  ⟨Or.inl rfl, h.1.1, h.2.1.2.2.2, h.2.2.2.1⟩

/-! ## C11: routing of status codes through `ERRCHECK_fn` -/

section Routing
variable {F : Type}

theorem call_diagnostics (w : World F) (c : Call F) : (w.call c).diagnostics = w.diagnostics :=
  rfl

theorem ERRCHECK_fn_diagnostics (w : World F) (res : FMOD_RESULT) (line : Nat) :
    (ERRCHECK_fn w res line).diagnostics = w.diagnostics + failures [res] := by
  unfold World.diagnostics failures
  rw [ERRCHECK_fn_log]
  by_cases h : res = FMOD_OK <;> simp [h, Msg.isFmodError, List.filter_append]

/-- In every state and for every pair of statuses, `Terminate` makes its two
calls and prints nothing. -/
theorem Terminate_drops_statuses (w : World F) (r : TerminateResp) :
    (AudioEngine.Terminate w r).calls
        = w.calls ++ [Call.systemClose w.engine.lowLevelSystem,
            Call.studioRelease w.engine.studioSystem]
      ∧ (AudioEngine.Terminate w r).log = w.log := by
  unfold AudioEngine.Terminate
  simp

/-- With the loaded flag unset, `Load` prints one "FMOD ERROR" line per failed
call among its four calls. -/
theorem Load_diagnostics [FloatOps F] (w : World F) (a : AudioData F) (r : LoadResp)
    (h : a.IsLoaded = false) :
    (AudioEngine.Load w a r).diagnostics
      = w.diagnostics
        + failures [r.createSound.1, r.setMode, r.set3DMinMaxDistance, r.getLength.1] := by
  unfold AudioEngine.Load AudioEngine.LoadBody
  simp only [h, Bool.not_false, if_true]
  unfold World.diagnostics failures
  simp only [ERRCHECK_fn_log, call_log, cout_log]
  by_cases h1 : r.createSound.1 = FMOD_OK <;> by_cases h2 : r.setMode = FMOD_OK <;>
    by_cases h3 : r.set3DMinMaxDistance = FMOD_OK <;> by_cases h4 : r.getLength.1 = FMOD_OK <;>
    simp [h1, h2, h3, h4, Msg.isFmodError, List.filter_append, List.filter_cons]

/-- With the loaded flag unset, the "FMOD ERROR" lines `Play` prints count the
failures of `playSound`, `set3DAttributes` (for a 3D asset), `setReverbProperties`
and `setPaused`; the status of `setVolume` does not enter. -/
theorem Play_diagnostics [FloatOps F] (w : World F) (a : AudioData F) (r : PlayResp)
    (h : a.IsLoaded = false) :
    (AudioEngine.Play w a r).diagnostics
      = w.diagnostics
        + failures ([r.playSound.1] ++ (if a.Is3D = true then [r.set3DAttributes] else [])
            ++ [r.setReverbProperties, r.setPaused]) := by
  unfold AudioEngine.Play
  simp only [h, Bool.not_false, if_true]
  unfold World.diagnostics failures
  cases h3 : a.Is3D <;> cases hl : a.Loop <;>
    simp only [AudioEngine.Set3DChannelPosition, ERRCHECK_fn_log, call_log, cout_log,
      Bool.false_eq_true, if_false, if_true] <;>
    by_cases h1 : r.playSound.1 = FMOD_OK <;> by_cases h2 : r.set3DAttributes = FMOD_OK <;>
    by_cases h4 : r.setReverbProperties = FMOD_OK <;> by_cases h5 : r.setPaused = FMOD_OK <;>
    simp [h1, h2, h4, h5, Msg.isFmodError, List.filter_append, List.filter_cons]

end Routing

/-- C11 (the code departs from the claim): after `Init()` and `Load` of "k", all
successful, `Play` of "k" makes four calls into the runtime, of which
`setVolume` fails with status 30, and prints nothing: one failed call, no
"FMOD ERROR" line.  `Terminate` then makes its two calls, both failing with
status 30, and prints nothing either.  Neither status is passed to
`ERRCHECK_fn`; both operations run to their end. -/
theorem C11_unchecked_statuses_print_nothing :
    loopAsset.IsLoaded = false
      ∧ (AudioEngine.Play readyWorld loopAsset playVolumeFails).calls
          = readyWorld.calls ++ [Call.playSound 2 5 true, Call.channelSetVolume 7 (1/4),
              Call.channelSetReverbProperties 7 0 0, Call.channelSetPaused 7 false]
      ∧ failures [playVolumeFails.playSound.1, playVolumeFails.setVolume,
          playVolumeFails.setReverbProperties, playVolumeFails.setPaused] = 1
      ∧ (AudioEngine.Play readyWorld loopAsset playVolumeFails).log = readyWorld.log
      ∧ (AudioEngine.Play readyWorld loopAsset playVolumeFails).diagnostics
          = readyWorld.diagnostics
      ∧ (AudioEngine.Terminate (AudioEngine.Play readyWorld loopAsset playVolumeFails)
          terminateFails).calls
          = (AudioEngine.Play readyWorld loopAsset playVolumeFails).calls
            ++ [Call.systemClose 2, Call.studioRelease 1]
      ∧ failures [terminateFails.close, terminateFails.release] = 2
      ∧ (AudioEngine.Terminate (AudioEngine.Play readyWorld loopAsset playVolumeFails)
          terminateFails).diagnostics = 0 := by
  refine ⟨rfl, ?_, ?_, ?_, ?_, ?_, ?_, ?_⟩ <;> rfl

/-! ## C12: a second `Play` of a loop that already has a handle -/

section Replay
variable {F : Type}

/-- With the loaded flag unset, the calls `Play` makes. -/
theorem Play_of_unloaded_calls [FloatOps F] (w : World F) (a : AudioData F)
    (r : PlayResp) (h : a.IsLoaded = false) :
    (AudioEngine.Play w a r).calls
      = w.calls
        ++ [Call.playSound w.engine.lowLevelSystem
              ((w.engine.sounds a.GetUniqueID).getD nullptr) true]
        ++ (if a.Is3D = true then
              [Call.channelSet3DAttributes r.playSound.2
                ⟨FloatOps.mul a.GetPosition.x DISTANCEFACTOR,
                 FloatOps.mul a.GetPosition.y DISTANCEFACTOR,
                 FloatOps.mul a.GetPosition.z DISTANCEFACTOR⟩
                ⟨FloatOps.lit 0, FloatOps.lit 0, FloatOps.lit 0⟩]
            else [])
        ++ [Call.channelSetVolume r.playSound.2 a.GetVolume,
            Call.channelSetReverbProperties r.playSound.2 0 a.GetReverbAmount,
            Call.channelSetPaused r.playSound.2 false] := by
  have hs : (w.engine.sounds.subscript a.GetUniqueID).1
      = (w.engine.sounds a.GetUniqueID).getD nullptr := by
    unfold StdMap.subscript
    cases w.engine.sounds a.GetUniqueID <;> rfl
  unfold AudioEngine.Play
  simp only [h, Bool.not_false, if_true]
  rw [hs]
  cases h3 : a.Is3D <;> cases hl : a.Loop <;>
    simp [AudioEngine.Set3DChannelPosition]

/-- With the loaded flag unset and the loop flag set, `Play` changes `loopsPlaying`
by one `insert`. -/
theorem Play_of_unloaded_loop_loopsPlaying [FloatOps F] (w : World F)
    (a : AudioData F) (r : PlayResp) (h : a.IsLoaded = false) (hl : a.Loop = true) :
    (AudioEngine.Play w a r).engine.loopsPlaying
      = w.engine.loopsPlaying.insert a.GetUniqueID r.playSound.2 := by
  unfold AudioEngine.Play
  simp only [h, hl, Bool.not_false, if_true, ERRCHECK_fn_engine, call_engine]
  cases h3 : a.Is3D
  · simp only [Bool.false_eq_true, if_false, ERRCHECK_fn_engine, call_engine]
  · simp only [if_true, Set3DChannelPosition_engine, ERRCHECK_fn_engine, call_engine]

theorem insert_of_some (m : StdMap) (k : String) (v ch : Ptr) (h : m k = some ch) :
    m.insert k v = m := by
  unfold StdMap.insert
  rw [h]

/-- With a handle registered, the calls `Stop` makes and the map it leaves. -/
theorem Stop_of_playing (w : World F) (a : AudioData F) (r : FMOD_RESULT)
    (ch : Ptr) (hl : a.Loop = true) (hch : w.engine.loopsPlaying a.GetUniqueID = some ch) :
    (AudioEngine.Stop w a r).calls = w.calls ++ [Call.channelStop ch]
      ∧ (AudioEngine.Stop w a r).engine.loopsPlaying
          = w.engine.loopsPlaying.erase a.GetUniqueID := by
  have hp : AudioEngine.IsPlaying w.engine a = true :=
    (IsPlaying_eq_true_iff _ _).mpr ⟨hl, ch, hch⟩
  unfold AudioEngine.Stop
  rw [if_pos hp, subscript_of_some _ _ _ hch]
  simp only [ERRCHECK_fn_calls, ERRCHECK_fn_engine, call_calls, call_engine, and_self]

end Replay

/-- C12: when `Play` starts a looping asset (its loaded flag is unset, so `Play`
takes its playback branch) whose identifier already has channel `ch1`
registered, `Play` starts a new channel (`playSound`, then `setPaused(false)`
on the channel obtained) and leaves `loopsPlaying` exactly as it was, so `ch1`
stays registered and the new channel is not tracked.  A following `Stop`
makes one call, `stop` on `ch1`; over `Play` and `Stop` together that is the
only `stop` issued; afterwards the identifier has no handle and `IsPlaying`
is false. -/
theorem C12_second_Play_keeps_first_handle {F : Type} [FloatOps F] (w : World F)
    (a : AudioData F) (r : PlayResp) (rs : FMOD_RESULT) (ch1 : Ptr)
    (hu : a.IsLoaded = false) (hl : a.Loop = true)
    (h1 : w.engine.loopsPlaying a.GetUniqueID = some ch1) :
    Call.playSound w.engine.lowLevelSystem ((w.engine.sounds a.GetUniqueID).getD nullptr) true
        ∈ (AudioEngine.Play w a r).calls
      ∧ Call.channelSetPaused r.playSound.2 false ∈ (AudioEngine.Play w a r).calls
      ∧ (AudioEngine.Play w a r).engine.loopsPlaying = w.engine.loopsPlaying
      ∧ (AudioEngine.Stop (AudioEngine.Play w a r) a rs).calls
          = (AudioEngine.Play w a r).calls ++ [Call.channelStop ch1]
      ∧ (AudioEngine.Stop (AudioEngine.Play w a r) a rs).calls.filter Call.isChannelStop
          = w.calls.filter Call.isChannelStop ++ [Call.channelStop ch1]
      ∧ (AudioEngine.Stop (AudioEngine.Play w a r) a rs).engine.loopsPlaying a.GetUniqueID = none
      ∧ AudioEngine.IsPlaying (AudioEngine.Stop (AudioEngine.Play w a r) a rs).engine a
          = false := by
  have hmap : (AudioEngine.Play w a r).engine.loopsPlaying = w.engine.loopsPlaying := by
    rw [Play_of_unloaded_loop_loopsPlaying w a r hu hl, insert_of_some _ _ _ _ h1]
  have h1p : (AudioEngine.Play w a r).engine.loopsPlaying a.GetUniqueID = some ch1 := by
    rw [hmap, h1]
  obtain ⟨hsc, hse⟩ := Stop_of_playing (AudioEngine.Play w a r) a rs ch1 hl h1p
  have hnone : (AudioEngine.Stop (AudioEngine.Play w a r) a rs).engine.loopsPlaying
      a.GetUniqueID = none := by
    rw [hse, erase_self]
  refine ⟨?_, ?_, hmap, hsc, ?_, hnone, (IsPlaying_eq_false_iff _ _).mpr (Or.inr hnone)⟩
  · rw [Play_of_unloaded_calls w a r hu]
    simp
  · rw [Play_of_unloaded_calls w a r hu]
    simp
  · rw [hsc, Play_of_unloaded_calls w a r hu]
    cases h3 : a.Is3D <;> simp [List.filter_append, Call.isChannelStop]

/-- C12 at a concrete input: the loop "k" plays sound 5 on channel 7; a second
`Play` starts channel 9, channel 7 stays registered, and `Stop` stops channel 7
only. -/
theorem C12_second_Play_keeps_first_handle_witness :
    Call.playSound 2 5 true ∈ (AudioEngine.Play readyPlaying loopAsset playOk9).calls
      ∧ Call.channelSetPaused 9 false ∈ (AudioEngine.Play readyPlaying loopAsset playOk9).calls
      ∧ (AudioEngine.Play readyPlaying loopAsset playOk9).engine.loopsPlaying "k" = some 7
      ∧ (AudioEngine.Stop (AudioEngine.Play readyPlaying loopAsset playOk9) loopAsset
          FMOD_OK).calls.filter Call.isChannelStop = [Call.channelStop 7]
      ∧ AudioEngine.IsPlaying (AudioEngine.Stop (AudioEngine.Play readyPlaying loopAsset playOk9)
          loopAsset FMOD_OK).engine loopAsset = false := by
  have h := C12_second_Play_keeps_first_handle readyPlaying loopAsset playOk9 FMOD_OK 7 rfl rfl
    (by decide)
  refine ⟨?_, h.2.1, ?_, h.2.2.2.2.1, h.2.2.2.2.2.2⟩
  · have h0 := h.1
    have hs : readyPlaying.engine.sounds loopAsset.GetUniqueID = some 5 := by decide
    rw [hs] at h0
    exact h0
  · rw [h.2.2.1]
    decide

end FMODAudio
